import Mathlib

/-!
Verification of the GTSfM reconstruction-pipeline orchestrator.

This file gives a shallow embedding of the orchestrator code:
* `gtsfm/utils/geometry_comparisons.py` — rotation/pose alignment and
  comparison utilities (`align_rotations`, `align_poses_sim3`,
  `compare_global_poses`, `compute_relative_unit_translation_angle`);
* `gtsfm/multi_view_optimizer.py` — the multi-view computation-graph wiring
  (pruning, averaging, data association, bundle adjustment);
* `gtsfm/scene_optimizer.py` — the scene-level graph tail that joins
  auxiliary side-effect computations into the returned result, and the
  persisted two-view front-end report (`save_full_frontend_metrics`);
* `gtsfm/utils/graph.py` — `prune_to_largest_connected_component`
  (modelled from the specification, the module is not part of the sources
  at hand).

Rotations are modelled as elements of an arbitrary group (composition is
group multiplication, `inverse` is group inverse).  Poses are a record of a
rotation and a translation over abstract carriers; the external gtsam
operations (`Similarity3.Align`, `transformFrom`, `Rot3.equals`,
`np.allclose`) are parameters of the embedding, since their internals are
external collaborators of the orchestrator.  Python exceptions (assertion
failures, index errors) are modelled with `Except` / `Option`.
-/

namespace GtsfmVerify

/-! ## geometry_comparisons.align_rotations

Python source:
```
w1Ri0 = input_list[0]
i0Rw1 = w1Ri0.inverse()
w2Ri0 = ref_list[0]
w2Rw1 = w2Ri0.compose(i0Rw1)
return [w2Rw1.compose(w1Ri) for w1Ri in input_list]
```
`input_list[0]` / `ref_list[0]` raise `IndexError` on an empty list, which
is modelled by returning `none`.
-/

def align_rotations {G : Type} [Group G] (input_list ref_list : List G) :
    Option (List G) :=
  match input_list, ref_list with
  | w1Ri0 :: rest, w2Ri0 :: _ =>
    let i0Rw1 := w1Ri0⁻¹
    let w2Rw1 := w2Ri0 * i0Rw1
    some ((w1Ri0 :: rest).map (fun w1Ri => w2Rw1 * w1Ri))
  | _, _ => none

/-! ## geometry_comparisons: poses, Sim(3) alignment, global-pose comparison

A pose (`gtsam.Pose3`) is a rotation together with a translation; the
carriers `R` and `V` are abstract, as are the external gtsam/numpy
operations:
* `alignSolver` models `Similarity3.Align` (computing a Sim(3) transform
  from a list of pose pairs);
* `transformFrom` models `Similarity3.transformFrom` on a pose;
* `rotEquals` models `Rot3.equals(other, tol)`;
* `allclose` models `np.allclose(a, b, rtol=tol)`.
-/

structure PoseRV (R V : Type) where
  rotation : R
  translation : V
deriving DecidableEq, Repr

/-- Indices at which the list holds a non-`None` entry.  Models the Python
comprehension `[i for (i, x) in enumerate(l) if x is not None]`. -/
def validIndices {α : Type} (l : List (Option α)) : List ℕ :=
  (List.range l.length).filter (fun i => (l.getD i none).isSome)

/-- The entries of the list at its valid indices.  Models the Python
comprehension `[l[i] for i in valid]` (each such entry is non-`None`). -/
def retainedEntries {α : Type} (l : List (Option α)) : List α :=
  (validIndices l).filterMap (fun i => l.getD i none)

/-- Function `geometry_comparisons.align_poses_sim3`.  The two `assert` statements are
modelled by `Except.error`; in the success branch the code maps
`aSb.transformFrom` over `bTi_list[i]` for `i in range(n_to_align)` with
`n_to_align = len(aTi_list) = len(bTi_list)` (lengths are equal there, by
the first assert). -/
def align_poses_sim3 {R V S : Type}
    (alignSolver : List (PoseRV R V × PoseRV R V) → S)
    (transformFrom : S → PoseRV R V → PoseRV R V)
    (aTi_list bTi_list : List (PoseRV R V)) : Except String (List (PoseRV R V)) :=
  if aTi_list.length = bTi_list.length then
    if 2 ≤ aTi_list.length then
      let ab_pairs := aTi_list.zip bTi_list
      let aSb := alignSolver ab_pairs
      .ok (bTi_list.map (fun bTi => transformFrom aSb bTi))
    else
      .error "AssertionError: SIM(3) alignment uses at least 2 frames"
  else
    .error "AssertionError: len(aTi_list) == len(bTi_list)"

/-- The per-index check of `compare_global_poses`:
`aTi.rotation().equals(bTi.rotation(), rot_err_thresh) and
np.allclose(aTi.translation(), bTi.translation(), rtol=trans_err_thresh)`. -/
def poseAgrees {R V : Type} (rotEquals : R → R → ℚ → Bool)
    (allclose : V → V → ℚ → Bool) (rot_err_thresh trans_err_thresh : ℚ)
    (p : PoseRV R V × PoseRV R V) : Bool :=
  rotEquals p.1.rotation p.2.rotation rot_err_thresh &&
    allclose p.1.translation p.2.translation trans_err_thresh

/-- Function `geometry_comparisons.compare_global_poses`.  Early `return False`
branches are `.ok false`; an assertion failure inside the internal
`align_poses_sim3` call would propagate as `.error`. -/
def compare_global_poses {R V S : Type}
    (alignSolver : List (PoseRV R V × PoseRV R V) → S)
    (transformFrom : S → PoseRV R V → PoseRV R V)
    (rotEquals : R → R → ℚ → Bool) (allclose : V → V → ℚ → Bool)
    (aTi_list bTi_list : List (Option (PoseRV R V)))
    (rot_err_thresh trans_err_thresh : ℚ) : Except String Bool :=
  if aTi_list.length ≠ bTi_list.length then .ok false
  else if validIndices aTi_list ≠ validIndices bTi_list then .ok false
  else if (validIndices aTi_list).length ≤ 1 then .ok false
  else
    match align_poses_sim3 alignSolver transformFrom
        (retainedEntries aTi_list) (retainedEntries bTi_list) with
    | .error e => .error e
    | .ok bTi_aligned =>
        .ok (((retainedEntries aTi_list).zip bTi_aligned).all
          (poseAgrees rotEquals allclose rot_err_thresh trans_err_thresh))

/-- The specification predicate for `compare_global_poses`, written from the
spec sentence: true iff the lists have equal length, the same `None`
support, at least two non-`None` entries, and, after aligning list B onto
list A with `align_poses_sim3` (A the reference), every retained index
agrees within the rotation threshold and the relative translation
threshold. -/
def compare_global_poses_spec {R V S : Type}
    (alignSolver : List (PoseRV R V × PoseRV R V) → S)
    (transformFrom : S → PoseRV R V → PoseRV R V)
    (rotEquals : R → R → ℚ → Bool) (allclose : V → V → ℚ → Bool)
    (aTi_list bTi_list : List (Option (PoseRV R V)))
    (rot_err_thresh trans_err_thresh : ℚ) : Bool :=
  decide (aTi_list.length = bTi_list.length) &&
  decide (validIndices aTi_list = validIndices bTi_list) &&
  decide (2 ≤ (validIndices aTi_list).length) &&
  (let alignedB := (align_poses_sim3 alignSolver transformFrom
      (retainedEntries aTi_list) (retainedEntries bTi_list)).toOption.getD []
   ((retainedEntries aTi_list).zip alignedB).all
     (poseAgrees rotEquals allclose rot_err_thresh trans_err_thresh))

/-! ## geometry_comparisons.compute_relative_unit_translation_angle

Unit translations (`gtsam.Unit3`) expose a 3-vector through `point3()`; the
function is modelled over arbitrary real 3-vectors, which in particular
covers the case where numerical error makes the dot product of two nearly
unit vectors fall outside `[-1, 1]`.
-/

/-- Models `np.dot(U_1.point3(), U_2.point3())` for 3-vectors. -/
def dotProduct3 (u v : Fin 3 → ℝ) : ℝ :=
  u 0 * v 0 + u 1 * v 1 + u 2 * v 2

/-- Models `np.clip(x, lo, hi)` on reals. -/
noncomputable def npClip (x lo hi : ℝ) : ℝ := min (max x lo) hi

/-- Models `np.rad2deg`. -/
noncomputable def rad2deg (x : ℝ) : ℝ := x * 180 / Real.pi

/-- Function `geometry_comparisons.compute_relative_unit_translation_angle`:
returns `None` when either input is `None`; otherwise clips the dot
product to `[-1, 1]`, takes the arccosine, and converts to degrees. -/
noncomputable def compute_relative_unit_translation_angle
    (U_1 U_2 : Option (Fin 3 → ℝ)) : Option ℝ :=
  match U_1, U_2 with
  | some u1, some u2 =>
      let dot_product := dotProduct3 u1 u2
      let dot_clipped := npClip dot_product (-1) 1
      let angle_rad := Real.arccos dot_clipped
      some (rad2deg angle_rad)
  | _, _ => none

/-! ## PairGraphPruner (gtsfm/utils/graph.py)

Modelled from the spec: the module `gtsfm/utils/graph.py` holding
`prune_to_largest_connected_component` is not among the sources at hand
(only its caller `multi_view_optimizer.py` is), so the pruner is modelled
from the specification of the PairGraphPruner: build an undirected graph
whose edges are the pair keys with a non-null estimate in either input
mapping or with an existing prior; compute connected components; select
the component with the most images, tie-breaking by the component holding
the lowest image index; return the sub-mappings restricted to edges whose
both endpoints lie in the surviving component.  Mappings are modelled as
association lists.
-/

/-- Modelled from the spec: the edge set of the pair graph — pair keys with
a non-null estimate in either mapping, or with a prior. -/
def pairGraphEdges {α β γ : Type}
    (i2Ri1 : List ((ℕ × ℕ) × Option α)) (i2Ui1 : List ((ℕ × ℕ) × Option β))
    (relative_pose_priors : List ((ℕ × ℕ) × γ)) : List (ℕ × ℕ) :=
  (((i2Ri1.filter (fun kv => kv.2.isSome)).map Prod.fst) ++
   ((i2Ui1.filter (fun kv => kv.2.isSome)).map Prod.fst) ++
   relative_pose_priors.map Prod.fst).dedup

/-- The image indices touched by any edge. -/
def edgeNodes (edges : List (ℕ × ℕ)) : List ℕ :=
  (edges.flatMap (fun e => [e.1, e.2])).dedup

/-- Two image indices joined by an (undirected) edge. -/
def adjacentB (edges : List (ℕ × ℕ)) (u v : ℕ) : Bool :=
  edges.any (fun e => (e.1 == u && e.2 == v) || (e.1 == v && e.2 == u))

/-- One BFS round: add every node adjacent to the current set. -/
def expandComponent (edges : List (ℕ × ℕ)) (s : List ℕ) : List ℕ :=
  (s ++ (edgeNodes edges).filter
    (fun v => s.any (fun u => adjacentB edges u v))).dedup

def iterateExpand (edges : List (ℕ × ℕ)) : ℕ → List ℕ → List ℕ
  | 0, s => s
  | n + 1, s => iterateExpand edges n (expandComponent edges s)

/-- The connected component of `v`: BFS saturates within `|nodes|` rounds. -/
def componentOf (edges : List (ℕ × ℕ)) (v : ℕ) : List ℕ :=
  iterateExpand edges (edgeNodes edges).length [v]

def insertAsc (x : ℕ) : List ℕ → List ℕ
  | [] => [x]
  | y :: ys => if x ≤ y then x :: y :: ys else y :: insertAsc x ys

def sortAsc (l : List ℕ) : List ℕ := l.foldr insertAsc []

/-- All connected components, listed in order of their lowest image index. -/
def componentsOf (edges : List (ℕ × ℕ)) : List (List ℕ) :=
  (sortAsc (edgeNodes edges)).foldl
    (fun acc v => if acc.any (fun c => c.contains v)
      then acc else acc ++ [componentOf edges v]) []

/-- Modelled from the spec: the component with the most images; ties go to
the component holding the lowest image index (the first one found, since
components are generated in order of their lowest node). -/
def largestComponent (edges : List (ℕ × ℕ)) : List ℕ :=
  (componentsOf edges).foldl
    (fun best c => if best.length < c.length then c else best) []

/-- Both endpoints of the pair key lie in the given component. -/
def keyInComponent (cc : List ℕ) (k : ℕ × ℕ) : Bool :=
  cc.contains k.1 && cc.contains k.2

/-- Modelled from the spec: `graph_utils.prune_to_largest_connected_component`
restricts the two parallel mappings to the pair keys whose both endpoints
lie in the largest connected component of the pair graph. -/
def prune_to_largest_connected_component {α β γ : Type}
    (i2Ri1 : List ((ℕ × ℕ) × Option α)) (i2Ui1 : List ((ℕ × ℕ) × Option β))
    (relative_pose_priors : List ((ℕ × ℕ) × γ)) :
    List ((ℕ × ℕ) × Option α) × List ((ℕ × ℕ) × Option β) :=
  let cc := largestComponent (pairGraphEdges i2Ri1 i2Ui1 relative_pose_priors)
  (i2Ri1.filter (fun kv => keyInComponent cc kv.1),
   i2Ui1.filter (fun kv => keyInComponent cc kv.1))

/-! ## Deferred computation graphs (dask)

A `Task` is a node of the deferred computation graph that the orchestrator
wires up: `base` is a caller-supplied delayed value, `node op args` is a
`dask.delayed` call of the external operation numbered `op` (its argument
list packed with `tcons`/`tnil`), `pair` is a delayed 2-tuple built by a
concrete lambda, and `item t i` is `t[i]`.  Materializing a task forces
every task reachable below it. -/

inductive Task : Type where
  | base : ℕ → Task
  | node : ℕ → Task → Task
  | pair : Task → Task → Task
  | item : Task → ℕ → Task
  | tnil : Task
  | tcons : Task → Task → Task
deriving DecidableEq, Repr

def taskOfList (l : List Task) : Task := l.foldr Task.tcons Task.tnil

/-- Values produced when a task graph is materialized. -/
inductive TaskValue : Type where
  | atom : ℕ → TaskValue
  | pair : TaskValue → TaskValue → TaskValue
  | vnil : TaskValue
  | vcons : TaskValue → TaskValue → TaskValue
deriving DecidableEq, Repr

/-- Projection for `t[i]` on a materialized 2-tuple. -/
def projectValue : ℕ → TaskValue → TaskValue
  | 0, .pair a _ => a
  | 1, .pair _ b => b
  | _, v => v

/-- Materialize a task: `env` interprets the caller-supplied delayed values
and `interp` the external operations. -/
def evalTask (env : ℕ → TaskValue) (interp : ℕ → TaskValue → TaskValue) :
    Task → TaskValue
  | .base n => env n
  | .node op a => interp op (evalTask env interp a)
  | .pair a b => .pair (evalTask env interp a) (evalTask env interp b)
  | .item t i => projectValue i (evalTask env interp t)
  | .tnil => .vnil
  | .tcons a b => .vcons (evalTask env interp a) (evalTask env interp b)

/-- Predicate `occursIn needle t`: the task `needle` is `t` or appears below `t`, i.e.
materializing `t` forces `needle` to execute. -/
def occursIn (needle : Task) : Task → Bool
  | .base n => decide (Task.base n = needle)
  | .node op a => decide (Task.node op a = needle) || occursIn needle a
  | .pair a b =>
      decide (Task.pair a b = needle) || occursIn needle a || occursIn needle b
  | .item a i => decide (Task.item a i = needle) || occursIn needle a
  | .tnil => decide (Task.tnil = needle)
  | .tcons a b =>
      decide (Task.tcons a b = needle) || occursIn needle a || occursIn needle b

/-- Predicate `opOccurs op t`: some `node op _` call appears in `t`. -/
def opOccurs (op : ℕ) : Task → Bool
  | .base _ => false
  | .node op2 a => decide (op2 = op) || opOccurs op a
  | .pair a b => opOccurs op a || opOccurs op b
  | .item a _ => opOccurs op a
  | .tnil => false
  | .tcons a b => opOccurs op a || opOccurs op b

/-! ## MultiViewOptimizer.create_computation_graph (multi_view_optimizer.py)

Operation numbers for the external modules called through `dask.delayed`.
A module returning a Python tuple of delayed objects is modelled as one
`node` whose components are read with `item 0` / `item 1`. -/

def opPrune : ℕ := 0
def opRotAvg : ℕ := 1
def opTransAvg : ℕ := 2
def opPoseSlam : ℕ := 3
def opInitCameras : ℕ := 4
def opDataAssoc : ℕ := 5
def opBundleAdjust : ℕ := 6
def opAlignSim3 : ℕ := 7

/-- Line 73: full (unpruned) rotation and unit-translation mappings plus the
relative pose priors are handed to the pruner. -/
def prunedGraphsTask (i2Ri1_graph i2Ui1_graph relative_pose_priors : Task) : Task :=
  .node opPrune (taskOfList [i2Ri1_graph, i2Ui1_graph, relative_pose_priors])

/-- Line 85: rotation averaging. -/
def rotAvgTask (num_images pruned_i2Ri1 relative_pose_priors gt_wTi_list : Task) :
    Task :=
  .node opRotAvg
    (taskOfList [num_images, pruned_i2Ri1, relative_pose_priors, gt_wTi_list])

/-- Line 89: translation averaging. -/
def transAvgTask (num_images pruned_i2Ui1 delayed_wRi absolute_pose_priors
    relative_pose_priors gt_wTi_list : Task) : Task :=
  .node opTransAvg
    (taskOfList [num_images, pruned_i2Ui1, delayed_wRi, absolute_pose_priors,
      relative_pose_priors, gt_wTi_list])

/-- Line 78: pose-SLAM initialization (alternate path). -/
def poseSlamTask (num_images relative_pose_priors gt_wTi_list : Task) : Task :=
  .node opPoseSlam (taskOfList [num_images, relative_pose_priors, gt_wTi_list])

/-- Line 101: camera instantiation. -/
def initCamerasTask (delayed_poses all_intrinsics : Task) : Task :=
  .node opInitCameras (taskOfList [delayed_poses, all_intrinsics])

/-- Line 103: data association. -/
def dataAssocTask (num_images init_cameras v_corr_idxs keypoints cameras_gt
    relative_pose_priors images : Task) : Task :=
  .node opDataAssoc
    (taskOfList [num_images, init_cameras, v_corr_idxs, keypoints, cameras_gt,
      relative_pose_priors, images])

/-- Line 113: bundle adjustment. -/
def baTask (ba_input absolute_pose_priors relative_pose_priors cameras_gt : Task) :
    Task :=
  .node opBundleAdjust
    (taskOfList [ba_input, absolute_pose_priors, relative_pose_priors, cameras_gt])

/-- Line 123: Sim(3) alignment of the BA input to the ground-truth poses,
for evaluation. -/
def alignToGtTask (ba_input gt_wTi_list : Task) : Task :=
  .node opAlignSim3 (taskOfList [ba_input, gt_wTi_list])

/-- Lines 77–100: the per-image global poses, from pose-SLAM initialization
or from rotation averaging over the pruned rotations followed by
translation averaging over the pruned unit translations. -/
def mvoDelayedPoses (use_pose_slam : Bool) (num_images i2Ri1_graph i2Ui1_graph
    absolute_pose_priors relative_pose_priors gt_wTi_list : Task) : Task :=
  if use_pose_slam then
    .item (poseSlamTask num_images relative_pose_priors gt_wTi_list) 0
  else
    let pruned := prunedGraphsTask i2Ri1_graph i2Ui1_graph relative_pose_priors
    let delayed_wRi :=
      .item (rotAvgTask num_images (.item pruned 0) relative_pose_priors
        gt_wTi_list) 0
    .item (transAvgTask num_images (.item pruned 1) delayed_wRi
      absolute_pose_priors relative_pose_priors gt_wTi_list) 0

/-- Lines 101–111: the (unaligned) bundle-adjustment input produced by data
association — the local variable `ba_input_graph` before line 123 rebinds
the name. -/
def mvoBaInputRaw (use_pose_slam : Bool) (num_images keypoints_graph i2Ri1_graph
    i2Ui1_graph v_corr_idxs_graph all_intrinsics absolute_pose_priors
    relative_pose_priors cameras_gt gt_wTi_list images_graph : Task) : Task :=
  .item (dataAssocTask num_images
    (initCamerasTask
      (mvoDelayedPoses use_pose_slam num_images i2Ri1_graph i2Ui1_graph
        absolute_pose_priors relative_pose_priors gt_wTi_list)
      all_intrinsics)
    v_corr_idxs_graph keypoints_graph cameras_gt relative_pose_priors
    images_graph) 0

/-- The metric groups gathered on lines 77–120. -/
def mvoMetrics (use_pose_slam : Bool) (num_images keypoints_graph i2Ri1_graph
    i2Ui1_graph v_corr_idxs_graph all_intrinsics absolute_pose_priors
    relative_pose_priors cameras_gt gt_wTi_list images_graph : Task) : List Task :=
  (if use_pose_slam then
    [.item (poseSlamTask num_images relative_pose_priors gt_wTi_list) 1]
  else
    let pruned := prunedGraphsTask i2Ri1_graph i2Ui1_graph relative_pose_priors
    [.item (rotAvgTask num_images (.item pruned 0) relative_pose_priors
        gt_wTi_list) 1,
     .item (transAvgTask num_images (.item pruned 1)
        (.item (rotAvgTask num_images (.item pruned 0) relative_pose_priors
          gt_wTi_list) 0)
        absolute_pose_priors relative_pose_priors gt_wTi_list) 1]) ++
  [.item (dataAssocTask num_images
      (initCamerasTask
        (mvoDelayedPoses use_pose_slam num_images i2Ri1_graph i2Ui1_graph
          absolute_pose_priors relative_pose_priors gt_wTi_list)
        all_intrinsics)
      v_corr_idxs_graph keypoints_graph cameras_gt relative_pose_priors
      images_graph) 1,
   .item (baTask (mvoBaInputRaw use_pose_slam num_images keypoints_graph
      i2Ri1_graph i2Ui1_graph v_corr_idxs_graph all_intrinsics
      absolute_pose_priors relative_pose_priors cameras_gt gt_wTi_list
      images_graph) absolute_pose_priors relative_pose_priors cameras_gt) 1]

/-- Method `MultiViewOptimizer.create_computation_graph`, lines 72–125: returns the
BA input aligned to ground truth, the BA result, and the metric groups. -/
def multi_view_optimizer_graph (use_pose_slam : Bool) (num_images keypoints_graph
    i2Ri1_graph i2Ui1_graph v_corr_idxs_graph all_intrinsics absolute_pose_priors
    relative_pose_priors cameras_gt gt_wTi_list images_graph : Task) :
    Task × Task × List Task :=
  let ba_input_graph := mvoBaInputRaw use_pose_slam num_images keypoints_graph
    i2Ri1_graph i2Ui1_graph v_corr_idxs_graph all_intrinsics
    absolute_pose_priors relative_pose_priors cameras_gt gt_wTi_list images_graph
  let ba_result_graph :=
    .item (baTask ba_input_graph absolute_pose_priors relative_pose_priors
      cameras_gt) 0
  let aligned_ba_input_graph := alignToGtTask ba_input_graph gt_wTi_list
  (aligned_ba_input_graph, ba_result_graph,
   mvoMetrics use_pose_slam num_images keypoints_graph i2Ri1_graph i2Ui1_graph
     v_corr_idxs_graph all_intrinsics absolute_pose_priors relative_pose_priors
     cameras_gt gt_wTi_list images_graph)

/-! ## SceneOptimizer.create_computation_graph (scene_optimizer.py)

Lines 278–285: the auxiliary graph list (visualizations, persistence,
metrics export) is joined with the BA output through the concrete
combinator `dask.delayed(lambda x, y: (x, y))` and the returned result is
entry 0 of that pair. -/

def scene_optimizer_output (ba_output_graph : Task)
    (auxiliary_graph_list : List Task) : Task :=
  .item (.pair ba_output_graph (taskOfList auxiliary_graph_list)) 0

/-! ## scene_optimizer.save_full_frontend_metrics (lines 409–461)

The persisted two-view report.  Python floats are modelled as rationals;
`round(x, 2)` is rounding to two decimal places with ties to even;
`int(x)` truncates toward zero.  The helper
`round_fn = lambda x: round(x, PRINT_NUM_SIG_FIGS) if x else None`
tests Python *truthiness*, under which both `None` and `0.0` are falsy. -/

/-- Round a rational to the nearest integer, ties to even (Python float
rounding). -/
def roundHalfEven (q : ℚ) : ℤ :=
  let f := ⌊q⌋
  let r := q - (f : ℚ)
  if r < 1 / 2 then f
  else if (1 : ℚ) / 2 < r then f + 1
  else if Even f then f else f + 1

/-- Python `round(x, 2)`: two decimal places, ties to even. -/
def pyRound2 (q : ℚ) : ℚ := (roundHalfEven (q * 100) : ℚ) / 100

/-- Python `int(x)`: truncation toward zero. -/
def pyInt (q : ℚ) : ℤ := if 0 ≤ q then ⌊q⌋ else -⌊-q⌋

/-- The helper `round_fn = lambda x: round(x, PRINT_NUM_SIG_FIGS) if x else None`
with `PRINT_NUM_SIG_FIGS = 2`: the guard is Python truthiness, so both
`None` and the value `0.0` produce `None`. -/
def round_fn (x : Option ℚ) : Option ℚ :=
  match x with
  | some v => if v ≠ 0 then some (pyRound2 v) else none
  | none => none

/-- Numpy Boolean-mask selection `xs[mask]`. -/
def maskSelect (xs : List ℚ) (mask : List Bool) : List ℚ :=
  ((xs.zip mask).filter (fun p => p.2)).map Prod.fst

/-- Numpy `nanmean` over rationals (no NaN entries exist in the rational
model; the empty selection, where numpy would emit NaN with a warning, is
mapped to 0 — no claim settled here depends on that corner). -/
def npNanmean (xs : List ℚ) : ℚ := xs.sum / xs.length

/-- The fields of `TwoViewEstimationReport` read by
`save_full_frontend_metrics`; optional fields are `None` when ground truth
(or the estimated model) is unavailable for the pair. -/
structure TwoViewEstimationReport where
  R_error_deg : Option ℚ
  U_error_deg : Option ℚ
  num_inliers_gt_model : Option ℚ
  inlier_ratio_gt_model : Option ℚ
  reproj_error_gt_model : Option (List ℚ)
  v_corr_idxs_inlier_mask_gt : Option (List Bool)
  inlier_ratio_est_model : Option ℚ
  num_inliers_est_model : Option ℚ
deriving DecidableEq, Repr

/-- One record of the persisted JSON array, with exactly the twelve fields
written by `save_full_frontend_metrics`; an optional field is `null` in
the JSON exactly when it is `none` here. -/
structure FrontendRecord where
  i1 : ℤ
  i2 : ℤ
  i1_filename : String
  i2_filename : String
  rotation_angular_error : Option ℚ
  translation_angular_error : Option ℚ
  num_inliers_gt_model : Option ℤ
  inlier_ratio_gt_model : Option ℚ
  inlier_avg_reproj_error_gt_model : Option ℚ
  outlier_avg_reproj_error_gt_model : Option ℚ
  inlier_ratio_est_model : Option ℚ
  num_inliers_est_model : Option ℤ
deriving DecidableEq, Repr

/-- The dictionary built for one image pair in the loop of
`save_full_frontend_metrics`. -/
def recordOfReport (i1 i2 : ℕ) (i1_filename i2_filename : String)
    (report : TwoViewEstimationReport) : FrontendRecord :=
  { i1 := (i1 : ℤ)
    i2 := (i2 : ℤ)
    i1_filename := i1_filename
    i2_filename := i2_filename
    rotation_angular_error := round_fn report.R_error_deg
    translation_angular_error := round_fn report.U_error_deg
    num_inliers_gt_model := report.num_inliers_gt_model.map pyInt
    inlier_ratio_gt_model := round_fn report.inlier_ratio_gt_model
    inlier_avg_reproj_error_gt_model :=
      match report.reproj_error_gt_model, report.v_corr_idxs_inlier_mask_gt with
      | some errs, some mask => round_fn (some (npNanmean (maskSelect errs mask)))
      | _, _ => none
    outlier_avg_reproj_error_gt_model :=
      match report.reproj_error_gt_model, report.v_corr_idxs_inlier_mask_gt with
      | some errs, some mask =>
          round_fn (some (npNanmean (maskSelect errs (mask.map not))))
      | _, _ => none
    inlier_ratio_est_model := round_fn report.inlier_ratio_est_model
    num_inliers_est_model := report.num_inliers_est_model.map pyInt }

/-- Function `save_full_frontend_metrics`: the JSON array persisted for a report
dictionary, one record per image pair (`images` supplies the file names,
indexed by image index). -/
def save_full_frontend_metrics
    (two_view_report_dict : List ((ℕ × ℕ) × TwoViewEstimationReport))
    (images : List String) : List FrontendRecord :=
  two_view_report_dict.map (fun kv =>
    recordOfReport kv.1.1 kv.1.2 (images.getD kv.1.1 "") (images.getD kv.1.2 "")
      kv.2)

/-- C6: for non-empty input and reference lists, `align_rotations` returns the
input list mapped through the corrective rotation `ref[0] * (input[0])⁻¹`,
hence the output has the length of the input, preserves order (entry `i` of
the output is the correction applied to entry `i` of the input), and its
entry 0 is `ref[0]`. -/
theorem align_rotations_corrective_map {G : Type} [Group G]
    (x r : G) (xs rs : List G) :
    align_rotations (x :: xs) (r :: rs)
        = some ((x :: xs).map (fun w => r * x⁻¹ * w)) ∧
    ((x :: xs).map (fun w => r * x⁻¹ * w)).length = (x :: xs).length ∧
    (∀ i : ℕ, ((x :: xs).map (fun w => r * x⁻¹ * w))[i]?
        = ((x :: xs)[i]?).map (fun w => r * x⁻¹ * w)) ∧
    ((x :: xs).map (fun w => r * x⁻¹ * w)).head? = some r := by
  refine ⟨rfl, by simp, fun i => ?_, ?_⟩
  · exact (List.getElem?_map _ _ _).symm ▸ rfl
  · simp

/-- C7: if the reference list is the input list with every entry composed
with one fixed rotation Δ, then `align_rotations` recovers exactly the
reference list. -/
theorem align_rotations_recovers_reference {G : Type} [Group G]
    (d x : G) (xs : List G) :
    align_rotations (x :: xs) ((x :: xs).map (fun w => d * w))
        = some ((x :: xs).map (fun w => d * w)) := by
  simp only [align_rotations, List.map_cons]
  simp [mul_assoc]

/-! ## Supporting lemmas for the pose-comparison theorems -/

theorem length_filterMap_of_isSome {α β : Type} (xs : List α) (f : α → Option β)
    (h : ∀ x ∈ xs, (f x).isSome) : (xs.filterMap f).length = xs.length := by
  induction xs with
  | nil => simp
  | cons a as ih =>
    obtain ⟨b, hb⟩ := Option.isSome_iff_exists.mp (h a (List.mem_cons_self a as))
    simp [List.filterMap_cons, hb,
      ih (fun x hx => h x (List.mem_cons_of_mem _ hx))]

theorem retainedEntries_length {α : Type} (l : List (Option α)) :
    (retainedEntries l).length = (validIndices l).length := by
  refine length_filterMap_of_isSome _ _ (fun i hi => ?_)
  exact (List.mem_filter.mp hi).2

/-- Core computation lemma shared by the comparison claims: the result of
`compare_global_poses` is always `.ok`, with the Boolean given by the spec
predicate. -/
theorem compare_global_poses_eq_ok_spec {R V S : Type}
    (alignSolver : List (PoseRV R V × PoseRV R V) → S)
    (transformFrom : S → PoseRV R V → PoseRV R V)
    (rotEquals : R → R → ℚ → Bool) (allclose : V → V → ℚ → Bool)
    (aTi_list bTi_list : List (Option (PoseRV R V)))
    (rot_err_thresh trans_err_thresh : ℚ) :
    compare_global_poses alignSolver transformFrom rotEquals allclose
        aTi_list bTi_list rot_err_thresh trans_err_thresh
      = .ok (compare_global_poses_spec alignSolver transformFrom rotEquals allclose
        aTi_list bTi_list rot_err_thresh trans_err_thresh) := by
  by_cases h1 : aTi_list.length = bTi_list.length
  · by_cases h2 : validIndices aTi_list = validIndices bTi_list
    · by_cases h3 : (validIndices aTi_list).length ≤ 1
      · have h3b : (validIndices bTi_list).length ≤ 1 := h2 ▸ h3
        have h4 : ¬ (2 ≤ (validIndices bTi_list).length) := by omega
        simp [compare_global_poses, compare_global_poses_spec, h1, h2, h3, h3b, h4]
      · have h3b : ¬ ((validIndices bTi_list).length ≤ 1) := h2 ▸ h3
        have h4 : 2 ≤ (validIndices bTi_list).length := by omega
        have e1 := retainedEntries_length aTi_list
        have e2 := retainedEntries_length bTi_list
        have hlen : (retainedEntries aTi_list).length
            = (retainedEntries bTi_list).length := by rw [e1, e2, h2]
        have h5 : 2 ≤ (retainedEntries bTi_list).length := by
          rw [← hlen, e1, h2]; exact h4
        simp [compare_global_poses, compare_global_poses_spec, h1, h2, h3, h3b, h4,
          align_poses_sim3, hlen, h5, Except.toOption]
    · simp [compare_global_poses, compare_global_poses_spec, h1, h2]
  · simp [compare_global_poses, compare_global_poses_spec, h1]

/-- C2: `compare_global_poses` returns a single Boolean that is true iff the
two lists have equal length, the same `None` support, at least two
non-`None` entries, and — after aligning list B onto list A with
`align_poses_sim3` (A the reference) — every retained index agrees within
the rotation threshold and the relative translation threshold; support
mismatches and fewer than two entries yield `false` without raising. -/
theorem compare_global_poses_iff_spec {R V S : Type}
    (alignSolver : List (PoseRV R V × PoseRV R V) → S)
    (transformFrom : S → PoseRV R V → PoseRV R V)
    (rotEquals : R → R → ℚ → Bool) (allclose : V → V → ℚ → Bool)
    (aTi_list bTi_list : List (Option (PoseRV R V)))
    (rot_err_thresh trans_err_thresh : ℚ) :
    compare_global_poses alignSolver transformFrom rotEquals allclose
        aTi_list bTi_list rot_err_thresh trans_err_thresh
      = .ok (compare_global_poses_spec alignSolver transformFrom rotEquals allclose
        aTi_list bTi_list rot_err_thresh trans_err_thresh) :=
  compare_global_poses_eq_ok_spec alignSolver transformFrom rotEquals allclose
    aTi_list bTi_list rot_err_thresh trans_err_thresh

/-- C9: `compare_global_poses` is total — on every pair of lists of optional
poses it returns a Boolean (`.ok`) and never propagates an assertion error
from the internal `align_poses_sim3` call, because that call is made only
after both lists are filtered to the same index support with at least two
non-`None` entries. -/
theorem compare_global_poses_total {R V S : Type}
    (alignSolver : List (PoseRV R V × PoseRV R V) → S)
    (transformFrom : S → PoseRV R V → PoseRV R V)
    (rotEquals : R → R → ℚ → Bool) (allclose : V → V → ℚ → Bool)
    (aTi_list bTi_list : List (Option (PoseRV R V)))
    (rot_err_thresh trans_err_thresh : ℚ) :
    ∃ v : Bool, compare_global_poses alignSolver transformFrom rotEquals allclose
        aTi_list bTi_list rot_err_thresh trans_err_thresh = .ok v :=
  ⟨_, compare_global_poses_eq_ok_spec alignSolver transformFrom rotEquals allclose
    aTi_list bTi_list rot_err_thresh trans_err_thresh⟩

/-- C3: `align_poses_sim3` fails (assertion error) exactly when the two lists
have different lengths or fewer than two entries; on equal-length lists
with at least two entries it returns a list of the same length as the
input list. -/
theorem align_poses_sim3_assert_iff {R V S : Type}
    (alignSolver : List (PoseRV R V × PoseRV R V) → S)
    (transformFrom : S → PoseRV R V → PoseRV R V)
    (aTi_list bTi_list : List (PoseRV R V)) :
    ((align_poses_sim3 alignSolver transformFrom aTi_list bTi_list).toOption = none
      ↔ (aTi_list.length ≠ bTi_list.length ∨ aTi_list.length < 2)) ∧
    ((align_poses_sim3 alignSolver transformFrom aTi_list bTi_list).toOption.map
        List.length
      = if aTi_list.length = bTi_list.length ∧ 2 ≤ aTi_list.length
        then some bTi_list.length else none) := by
  by_cases h1 : aTi_list.length = bTi_list.length
  · by_cases h2 : 2 ≤ aTi_list.length
    · have h2b : 2 ≤ bTi_list.length := h1 ▸ h2
      have h2c : ¬ (bTi_list.length < 2) := by omega
      simp [align_poses_sim3, h1, h2, h2b, h2c, Except.toOption]
    · have h2b : ¬ (2 ≤ bTi_list.length) := h1 ▸ h2
      have h2c : bTi_list.length < 2 := by omega
      simp [align_poses_sim3, h1, h2, h2b, h2c, Except.toOption]
  · simp [align_poses_sim3, h1, Except.toOption]

/-! ## Supporting lemmas for the task-graph theorems -/

theorem occursIn_self (t : Task) : occursIn t t = true := by
  cases t <;> simp [occursIn]

theorem occursIn_taskOfList_of_mem {a : Task} :
    ∀ {l : List Task}, a ∈ l → occursIn a (taskOfList l) = true := by
  intro l h
  induction l with
  | nil => cases h
  | cons x xs ih =>
    rcases List.mem_cons.mp h with rfl | h2
    · simp [taskOfList, occursIn, occursIn_self]
    · simp [taskOfList, occursIn] at ih ⊢
      simp [ih h2]

/-- C4: the deferred computation returned by
`SceneOptimizer.create_computation_graph` materializes to exactly the value
of the bundle-adjustment output (the
auxiliary values are discarded), while every auxiliary computation occurs
inside the returned task, so materializing the result forces it to
execute. -/
theorem scene_optimizer_output_spec :
    ∀ (env : ℕ → TaskValue) (interp : ℕ → TaskValue → TaskValue)
      (ba_output_graph : Task) (auxiliary_graph_list : List Task),
      evalTask env interp
          (scene_optimizer_output ba_output_graph auxiliary_graph_list)
        = evalTask env interp ba_output_graph ∧
      auxiliary_graph_list.all
          (fun a => occursIn a
            (scene_optimizer_output ba_output_graph auxiliary_graph_list))
        = true := by
  intro env interp b aux
  refine ⟨rfl, List.all_eq_true.mpr (fun a ha => ?_)⟩
  simp [scene_optimizer_output, occursIn, occursIn_taskOfList_of_mem ha]

/-- C5: in the multi-view computation graph, the bundle-adjustment node
consumes the raw (unaligned) data-association output; the Sim(3) alignment
to ground truth is applied only to the separately returned evaluation copy
of the BA input, and no alignment node occurs anywhere inside the returned
BA-result computation (when none is hidden in the caller-supplied
inputs). -/
theorem mvo_ba_consumes_unaligned_input :
    ∀ (use_pose_slam : Bool) (num_images keypoints_graph i2Ri1_graph i2Ui1_graph
        v_corr_idxs_graph all_intrinsics absolute_pose_priors relative_pose_priors
        cameras_gt gt_wTi_list images_graph : Task),
      (multi_view_optimizer_graph use_pose_slam num_images keypoints_graph
          i2Ri1_graph i2Ui1_graph v_corr_idxs_graph all_intrinsics
          absolute_pose_priors relative_pose_priors cameras_gt gt_wTi_list
          images_graph).2.1
        = .item (baTask
            (mvoBaInputRaw use_pose_slam num_images keypoints_graph i2Ri1_graph
              i2Ui1_graph v_corr_idxs_graph all_intrinsics absolute_pose_priors
              relative_pose_priors cameras_gt gt_wTi_list images_graph)
            absolute_pose_priors relative_pose_priors cameras_gt) 0 ∧
      (multi_view_optimizer_graph use_pose_slam num_images keypoints_graph
          i2Ri1_graph i2Ui1_graph v_corr_idxs_graph all_intrinsics
          absolute_pose_priors relative_pose_priors cameras_gt gt_wTi_list
          images_graph).1
        = alignToGtTask
            (mvoBaInputRaw use_pose_slam num_images keypoints_graph i2Ri1_graph
              i2Ui1_graph v_corr_idxs_graph all_intrinsics absolute_pose_priors
              relative_pose_priors cameras_gt gt_wTi_list images_graph)
            gt_wTi_list ∧
      ((opOccurs opAlignSim3 num_images || opOccurs opAlignSim3 keypoints_graph ||
        opOccurs opAlignSim3 i2Ri1_graph || opOccurs opAlignSim3 i2Ui1_graph ||
        opOccurs opAlignSim3 v_corr_idxs_graph ||
        opOccurs opAlignSim3 all_intrinsics ||
        opOccurs opAlignSim3 absolute_pose_priors ||
        opOccurs opAlignSim3 relative_pose_priors ||
        opOccurs opAlignSim3 cameras_gt || opOccurs opAlignSim3 gt_wTi_list ||
        opOccurs opAlignSim3 images_graph) = false →
        opOccurs opAlignSim3
          ((multi_view_optimizer_graph use_pose_slam num_images keypoints_graph
            i2Ri1_graph i2Ui1_graph v_corr_idxs_graph all_intrinsics
            absolute_pose_priors relative_pose_priors cameras_gt gt_wTi_list
            images_graph).2.1) = false) := by
  intro use_pose_slam num_images keypoints_graph i2Ri1_graph i2Ui1_graph
    v_corr_idxs_graph all_intrinsics absolute_pose_priors relative_pose_priors
    cameras_gt gt_wTi_list images_graph
  refine ⟨rfl, rfl, fun h => ?_⟩
  cases use_pose_slam <;>
    simp only [multi_view_optimizer_graph, mvoBaInputRaw, mvoDelayedPoses,
      baTask, dataAssocTask, initCamerasTask, rotAvgTask, transAvgTask,
      poseSlamTask, prunedGraphsTask, alignToGtTask, taskOfList, List.foldr,
      opOccurs, opPrune, opRotAvg, opTransAvg, opPoseSlam, opInitCameras,
      opDataAssoc, opBundleAdjust, opAlignSim3, Bool.or_eq_false_iff,
      decide_eq_false_iff_not, if_true, if_false, Bool.false_or,
      cond_true, cond_false] at h ⊢ <;>
    simp_all

theorem mvo_ba_consumes_unaligned_input_witness :
    ((opOccurs opAlignSim3 (Task.base 0) || opOccurs opAlignSim3 (Task.base 1) ||
      opOccurs opAlignSim3 (Task.base 2) || opOccurs opAlignSim3 (Task.base 3) ||
      opOccurs opAlignSim3 (Task.base 4) || opOccurs opAlignSim3 (Task.base 5) ||
      opOccurs opAlignSim3 (Task.base 6) || opOccurs opAlignSim3 (Task.base 7) ||
      opOccurs opAlignSim3 (Task.base 8) || opOccurs opAlignSim3 (Task.base 9) ||
      opOccurs opAlignSim3 (Task.base 10)) = false) ∧
    opOccurs opAlignSim3
      ((multi_view_optimizer_graph false (Task.base 0) (Task.base 1)
        (Task.base 2) (Task.base 3) (Task.base 4) (Task.base 5) (Task.base 6)
        (Task.base 7) (Task.base 8) (Task.base 9) (Task.base 10)).2.1) = false :=
  ⟨by decide,
   (mvo_ba_consumes_unaligned_input false (Task.base 0) (Task.base 1)
      (Task.base 2) (Task.base 3) (Task.base 4) (Task.base 5) (Task.base 6)
      (Task.base 7) (Task.base 8) (Task.base 9)
      (Task.base 10)).2.2 (by decide)⟩

/-- C1: the full (unpruned) rotation and unit-translation mappings and the
relative-pose priors feed the pruner node, whose two outputs are exactly
what rotation averaging and translation averaging consume; and the
output mappings of the pruner contain precisely the input entries whose pair
key has both endpoints in the largest connected component — entries
outside it are dropped (their keys are absent from the output), never
replaced by defaults. -/
theorem averaging_consumes_pruned_largest_component :
    (∀ (num_images i2Ri1_graph i2Ui1_graph absolute_pose_priors
        relative_pose_priors gt_wTi_list : Task),
      mvoDelayedPoses false num_images i2Ri1_graph i2Ui1_graph
          absolute_pose_priors relative_pose_priors gt_wTi_list
        = .item (transAvgTask num_images
            (.item (prunedGraphsTask i2Ri1_graph i2Ui1_graph
              relative_pose_priors) 1)
            (.item (rotAvgTask num_images
              (.item (prunedGraphsTask i2Ri1_graph i2Ui1_graph
                relative_pose_priors) 0)
              relative_pose_priors gt_wTi_list) 0)
            absolute_pose_priors relative_pose_priors gt_wTi_list) 0) ∧
    (∀ (α β γ : Type) (inst1 : DecidableEq α) (inst2 : DecidableEq β)
        (i2Ri1 : List ((ℕ × ℕ) × Option α)) (i2Ui1 : List ((ℕ × ℕ) × Option β))
        (priors : List ((ℕ × ℕ) × γ)),
      (prune_to_largest_connected_component i2Ri1 i2Ui1 priors).1.all
          (fun kv =>
            keyInComponent (largestComponent (pairGraphEdges i2Ri1 i2Ui1 priors))
              kv.1 && decide (kv ∈ i2Ri1)) = true ∧
      (prune_to_largest_connected_component i2Ri1 i2Ui1 priors).2.all
          (fun kv =>
            keyInComponent (largestComponent (pairGraphEdges i2Ri1 i2Ui1 priors))
              kv.1 && decide (kv ∈ i2Ui1)) = true ∧
      i2Ri1.all (fun kv =>
          keyInComponent (largestComponent (pairGraphEdges i2Ri1 i2Ui1 priors))
            kv.1 ||
          !(decide (kv.1 ∈
            (prune_to_largest_connected_component i2Ri1 i2Ui1 priors).1.map
              Prod.fst))) = true ∧
      i2Ui1.all (fun kv =>
          keyInComponent (largestComponent (pairGraphEdges i2Ri1 i2Ui1 priors))
            kv.1 ||
          !(decide (kv.1 ∈
            (prune_to_largest_connected_component i2Ri1 i2Ui1 priors).2.map
              Prod.fst))) = true) := by
  refine ⟨fun _ _ _ _ _ _ => rfl, ?_⟩
  intro α β γ inst1 inst2 i2Ri1 i2Ui1 priors
  refine ⟨?_, ?_, ?_, ?_⟩
  · refine List.all_eq_true.mpr (fun kv hkv => ?_)
    obtain ⟨hmem, hp⟩ : kv ∈ i2Ri1 ∧ keyInComponent
        (largestComponent (pairGraphEdges i2Ri1 i2Ui1 priors)) kv.1 = true := by
      simpa [prune_to_largest_connected_component] using hkv
    simp [hp, hmem]
  · refine List.all_eq_true.mpr (fun kv hkv => ?_)
    obtain ⟨hmem, hp⟩ : kv ∈ i2Ui1 ∧ keyInComponent
        (largestComponent (pairGraphEdges i2Ri1 i2Ui1 priors)) kv.1 = true := by
      simpa [prune_to_largest_connected_component] using hkv
    simp [hp, hmem]
  · refine List.all_eq_true.mpr (fun kv hkv => ?_)
    by_cases hk : keyInComponent
        (largestComponent (pairGraphEdges i2Ri1 i2Ui1 priors)) kv.1 = true
    · simp [hk]
    · simp only [Bool.or_eq_true, Bool.not_eq_true', decide_eq_false_iff_not]
      right
      intro hmm
      obtain ⟨kv2, hkv2, hfst⟩ := List.mem_map.mp hmm
      obtain ⟨hm2, hp⟩ : kv2 ∈ i2Ri1 ∧ keyInComponent
          (largestComponent (pairGraphEdges i2Ri1 i2Ui1 priors)) kv2.1 = true := by
        simpa [prune_to_largest_connected_component] using hkv2
      rw [hfst] at hp
      exact hk hp
  · refine List.all_eq_true.mpr (fun kv hkv => ?_)
    by_cases hk : keyInComponent
        (largestComponent (pairGraphEdges i2Ri1 i2Ui1 priors)) kv.1 = true
    · simp [hk]
    · simp only [Bool.or_eq_true, Bool.not_eq_true', decide_eq_false_iff_not]
      right
      intro hmm
      obtain ⟨kv2, hkv2, hfst⟩ := List.mem_map.mp hmm
      obtain ⟨hm2, hp⟩ : kv2 ∈ i2Ui1 ∧ keyInComponent
          (largestComponent (pairGraphEdges i2Ri1 i2Ui1 priors)) kv2.1 = true := by
        simpa [prune_to_largest_connected_component] using hkv2
      rw [hfst] at hp
      exact hk hp

/-- C10: `compute_relative_unit_translation_angle` returns `None` exactly
when one of its inputs is `None`; on any two present 3-vectors the dot
product is clipped to `[-1, 1]` before the arccosine is taken, so the
result is always a real angle between 0 and 180 degrees. -/
theorem compute_relative_unit_translation_angle_range :
    ∀ U_1 U_2 : Option (Fin 3 → ℝ),
      (compute_relative_unit_translation_angle U_1 U_2 = none
        ↔ U_1 = none ∨ U_2 = none) ∧
      (∀ u1 u2 : Fin 3 → ℝ, ∃ θ : ℝ,
        compute_relative_unit_translation_angle (some u1) (some u2) = some θ ∧
        0 ≤ θ ∧ θ ≤ 180 ∧
        -1 ≤ npClip (dotProduct3 u1 u2) (-1) 1 ∧
        npClip (dotProduct3 u1 u2) (-1) 1 ≤ 1) := by
  intro U_1 U_2
  constructor
  · cases U_1 <;> cases U_2 <;>
      simp [compute_relative_unit_translation_angle]
  · intro u1 u2
    set c := npClip (dotProduct3 u1 u2) (-1) 1 with hc
    refine ⟨rad2deg (Real.arccos c), rfl, ?_, ?_, ?_, ?_⟩
    · exact div_nonneg (mul_nonneg (Real.arccos_nonneg c) (by norm_num))
        Real.pi_pos.le
    · have harc : Real.arccos c ≤ Real.pi := Real.arccos_le_pi c
      have h1 : Real.arccos c * 180 / Real.pi ≤ Real.pi * 180 / Real.pi :=
        (div_le_div_iff_of_pos_right Real.pi_pos).mpr
          (mul_le_mul_of_nonneg_right harc (by norm_num))
      have h2 : Real.pi * 180 / Real.pi = 180 := by
        rw [mul_comm, mul_div_assoc, div_self Real.pi_ne_zero, mul_one]
      calc rad2deg (Real.arccos c) = Real.arccos c * 180 / Real.pi := rfl
        _ ≤ Real.pi * 180 / Real.pi := h1
        _ = 180 := h2
    · exact le_min (le_max_right _ _) (by norm_num)
    · exact min_le_right _ _

/-- C8 (code bug): a pair whose ground-truth rotation error is present and
exactly 0.0 is persisted with a null `rotation_angular_error` (while a
present nonzero error, here the translation error 1.0, is persisted
rounded), because `round_fn` tests Python truthiness (`if x`) instead of
`if x is not None` — so a field can be null even though the ground truth
it depends on is available, contradicting the stated format. -/
theorem save_full_frontend_metrics_nulls_zero_value :
    (save_full_frontend_metrics
        [((0, 1),
          { R_error_deg := some 0
            U_error_deg := some 1
            num_inliers_gt_model := some 10
            inlier_ratio_gt_model := some (1 / 2)
            reproj_error_gt_model := some [1, 2]
            v_corr_idxs_inlier_mask_gt := some [true, false]
            inlier_ratio_est_model := some (1 / 2)
            num_inliers_est_model := some 10 })]
        ["a.jpg", "b.jpg"]).map (fun r => r.rotation_angular_error) = [none] ∧
    (save_full_frontend_metrics
        [((0, 1),
          { R_error_deg := some 0
            U_error_deg := some 1
            num_inliers_gt_model := some 10
            inlier_ratio_gt_model := some (1 / 2)
            reproj_error_gt_model := some [1, 2]
            v_corr_idxs_inlier_mask_gt := some [true, false]
            inlier_ratio_est_model := some (1 / 2)
            num_inliers_est_model := some 10 })]
        ["a.jpg", "b.jpg"]).map (fun r => r.translation_angular_error)
      = [some 1] := by
  constructor <;>
    norm_num [save_full_frontend_metrics, recordOfReport, round_fn, pyRound2,
      roundHalfEven]

end GtsfmVerify
